import Mathlib

/-!
Verification development for the request-gating middleware of the
`bs-admin-better` repository (`src/middleware.js`).

The middleware is embedded shallowly:

* the module-level `requestCounts` JavaScript `Map` becomes an explicit
  association list `RLMap` threaded through `checkRateLimit`;
* `Date.now()` becomes an explicit `now : Nat` argument (milliseconds);
* the awaited `auth.api.getSession` call becomes an explicit
  `Except String (Option Session)` argument: `.error` models a thrown
  exception, `.ok none` a null session;
* the produced `NextResponse` values become the `Decision` inductive;
* the result record additionally carries observation flags recording which
  pipeline stages were reached (session resolution, role check, rate
  limiter, content-type check), set exactly at the program points where
  `middleware.js` performs those operations.

JavaScript string operations are modelled on the character lists of Lean
strings (`includes` is infix containment, `startsWith` is prefix), and the
`||` fallbacks on possibly-undefined strings use JavaScript truthiness
(`undefined`/`null`/`""` are falsy).
-/

namespace BsAdmin

/-- JavaScript `s.includes(pat)`: substring containment. -/
def jsIncludes (s pat : String) : Bool :=
  decide (pat.data <:+: s.data)

/-- JavaScript `s.startsWith(pre)`. -/
def jsStartsWith (s pre : String) : Bool :=
  decide (pre.data <+: s.data)

/-- JavaScript truthiness of a possibly-absent string: `undefined`, `null`
and `""` are falsy. -/
def truthy (s : Option String) : Bool :=
  match s with
  | none => false
  | some v => v ≠ ""

/-- JavaScript `a || b` on possibly-absent strings. -/
def jsOr (a b : Option String) : Option String :=
  if truthy a then a else b

/-- JavaScript `a || b` where `b` is a present string, yielding a string. -/
def jsOrStr (a : Option String) (b : String) : String :=
  match a with
  | some v => if v ≠ "" then v else b
  | none => b

/-! ## Rate limiter (`checkRateLimit`, middleware.js lines 10-37) -/

/-- The module-level `requestCounts` Map: identifier → timestamps.
Modelled as an insertion-ordered association list, matching a JS `Map`. -/
abbrev RLMap := List (String × List Nat)

/-- `RATE_LIMIT_WINDOW = 60000` (one minute, in milliseconds). -/
def RATE_LIMIT_WINDOW : Nat := 60000

/-- `MAX_REQUESTS = 100` (requests per window). -/
def MAX_REQUESTS : Nat := 100

/-- JS `Map.get`: first entry with the given key, if any. -/
def mapGet (m : RLMap) (k : String) : Option (List Nat) :=
  match m with
  | [] => none
  | (k2, v) :: rest => if k2 = k then some v else mapGet rest k

/-- JS `Map.set`: update in place when the key is present, else append. -/
def mapSet (m : RLMap) (k : String) (v : List Nat) : RLMap :=
  match m with
  | [] => [(k, v)]
  | (k2, v2) :: rest =>
    if k2 = k then (k2, v) :: rest else (k2, v2) :: mapSet rest k v

/-- `checkRateLimit(identifier)` from middleware.js, with the shared map and
the clock made explicit.  Returns the verdict and the new map state. -/
def checkRateLimit (m : RLMap) (identifier : String) (now : Nat) :
    Bool × RLMap :=
  let userRequests := (mapGet m identifier).getD []
  let recentRequests :=
    userRequests.filter (fun time => decide (now - time < RATE_LIMIT_WINDOW))
  if MAX_REQUESTS ≤ recentRequests.length then
    (false, m)
  else
    let recentRequests := recentRequests ++ [now]
    let m := mapSet m identifier recentRequests
    let m := if 1000 < m.length then ([] : RLMap) else m
    (true, m)

/-- Repeated calls of `checkRateLimit` for one identifier at the given
sequence of clock readings, collecting the verdicts. -/
def runCalls (m : RLMap) (identifier : String) : List Nat → RLMap × List Bool
  | [] => (m, [])
  | t :: ts =>
    let r := checkRateLimit m identifier t
    let rest := runCalls r.2 identifier ts
    (rest.1, r.1 :: rest.2)

/-! ## Path classification (middleware.js lines 39-62, 75-91) -/

/-- `PUBLIC_PATHS` from middleware.js. -/
def PUBLIC_PATHS : List String :=
  ["/", "/_next/", "/favicon.ico", "/robots.txt", "/sitemap.xml",
   "/images/", "/api/auth/"]

/-- `SUSPICIOUS_PATHS` from middleware.js. -/
def SUSPICIOUS_PATHS : List String :=
  ["/.env", "/wp-admin", "/phpMyAdmin", "/.git", "/config", "/backup",
   "/.aws", "/admin.php", "/login.php", "/shell.php"]

/-- `SUSPICIOUS_PATHS.some((path) => pathname.includes(path))`. -/
def isSuspicious (pathname : String) : Bool :=
  SUSPICIOUS_PATHS.any (fun path => jsIncludes pathname path)

/-- `PUBLIC_PATHS.some((publicPath) => pathname.startsWith(publicPath))`. -/
def isPublicPath (pathname : String) : Bool :=
  PUBLIC_PATHS.any (fun publicPath => jsStartsWith pathname publicPath)

/-! ## Requests, sessions and decisions -/

/-- The user object carried by a Better Auth session; each field may be
absent (`undefined`) on the JavaScript side. -/
structure User where
  role : Option String
  email : Option String
  id : Option String
deriving DecidableEq

/-- A resolved session; `user` may be absent (`!session.user`). -/
structure Session where
  user : Option User
deriving DecidableEq

/-- The parts of the Next.js request read by the middleware. -/
structure Request where
  pathname : String
  origin : String
  method : String
  contentType : Option String
  xForwardedFor : Option String
  ip : Option String
deriving DecidableEq

/-- The response produced by one middleware pass. -/
inductive Decision where
  /-- `new NextResponse(null, { status })` — empty body. -/
  | reject (status : Nat)
  /-- `new NextResponse(JSON.stringify({success, message}), {status, headers})`. -/
  | rejectJson (status : Nat) (success : Bool) (message : String)
      (headers : List (String × String))
  /-- `NextResponse.redirect` to `new URL(path, req.url)` with the given
  query parameters (in insertion order) and response headers. -/
  | redirect (path : String) (query : List (String × String))
      (headers : List (String × String))
  /-- `NextResponse.next()` with the given response headers. -/
  | next (headers : List (String × String))
deriving DecidableEq

/-- Outcome of a middleware pass: the decision, the rate-limit map after
the pass, and flags recording which stages of the pipeline were reached. -/
structure MwResult where
  decision : Decision
  rlState : RLMap
  calledGetSession : Bool
  checkedRole : Bool
  calledCheckRateLimit : Bool
  checkedContentType : Bool
deriving DecidableEq

/-- Security headers attached to a forwarded response
(middleware.js lines 229-264), in insertion order. -/
def forwardHeaders (pathname origin : String)
    (userEmail userId : Option String) (userRole : String) :
    List (String × String) :=
  (if jsStartsWith pathname "/api/" then
    [("Access-Control-Allow-Origin", origin),
     ("Access-Control-Allow-Credentials", "true"),
     ("Access-Control-Allow-Methods", "GET, POST, PUT, DELETE, PATCH, OPTIONS"),
     ("Access-Control-Allow-Headers", "Content-Type, Authorization"),
     ("X-Content-Type-Options", "nosniff"),
     ("X-Frame-Options", "DENY"),
     ("X-XSS-Protection", "0"),
     ("Referrer-Policy", "strict-origin-when-cross-origin")]
   else []) ++
  (if jsStartsWith pathname "/admin" || jsStartsWith pathname "/api/" then
    [("X-Admin-User", jsOrStr userEmail "unknown"),
     ("X-User-Id", jsOrStr userId "unknown"),
     ("X-User-Role", userRole),
     ("Cache-Control", "no-store, no-cache, must-revalidate, private")]
   else []) ++
  [("X-User-Authenticated", "true")]

/-- Steps 6-7 of the pipeline (content-type guard, then the forwarded
response with security headers), reached only by an authenticated admin. -/
def contentTypeAndForward (req : Request) (userEmail userId : Option String)
    (userRole : String) (rl : RLMap) (calledRL : Bool) : MwResult :=
  let pathname := req.pathname
  let badContentType :=
    !(truthy req.contentType) ||
      (!(jsIncludes (req.contentType.getD "") "application/json") &&
       !(jsIncludes (req.contentType.getD "") "multipart/form-data"))
  if (["POST", "PUT", "PATCH"] : List String).contains req.method &&
      badContentType && !(jsIncludes pathname "/api/auth/") then
    { decision := .rejectJson 400 false "Invalid content type"
        [("Content-Type", "application/json")]
      rlState := rl
      calledGetSession := true
      checkedRole := true
      calledCheckRateLimit := calledRL
      checkedContentType := true }
  else
    { decision := .next
        (forwardHeaders pathname req.origin userEmail userId userRole)
      rlState := rl
      calledGetSession := true
      checkedRole := true
      calledCheckRateLimit := calledRL
      checkedContentType := true }

/-- The `middleware(req)` function of middleware.js.  `sessionResult` is
the outcome of the awaited `auth.api.getSession` call (`.error` models a
thrown exception), `rl` the current `requestCounts` state and `now` the
clock. -/
def middleware (req : Request) (sessionResult : Except String (Option Session))
    (rl : RLMap) (now : Nat) : MwResult :=
  let pathname := req.pathname
  let ip := jsOrStr (jsOr req.xForwardedFor req.ip) "unknown"
  -- 1. protection against security scans
  if isSuspicious pathname then
    { decision := .reject 404, rlState := rl, calledGetSession := false,
      checkedRole := false, calledCheckRateLimit := false,
      checkedContentType := false }
  -- 2. public routes: fast exit
  else if isPublicPath pathname then
    { decision := .next [], rlState := rl, calledGetSession := false,
      checkedRole := false, calledCheckRateLimit := false,
      checkedContentType := false }
  else
    -- 3. Better Auth session resolution (the try/catch block)
    match sessionResult with
    | .error _ =>
      { decision := .redirect "/" [("error", "auth_error")]
          [("X-Redirect-Reason", "auth-error")],
        rlState := rl, calledGetSession := true, checkedRole := false,
        calledCheckRateLimit := false, checkedContentType := false }
    | .ok sessionOpt =>
      match sessionOpt with
      | none =>
        { decision := .redirect "/"
            [("error", "authentication_required"), ("callbackUrl", pathname)]
            [("X-Redirect-Reason", "no-session")],
          rlState := rl, calledGetSession := true, checkedRole := false,
          calledCheckRateLimit := false, checkedContentType := false }
      | some session =>
        match session.user with
        | none =>
          { decision := .redirect "/"
              [("error", "authentication_required"), ("callbackUrl", pathname)]
              [("X-Redirect-Reason", "no-session")],
            rlState := rl, calledGetSession := true, checkedRole := false,
            calledCheckRateLimit := false, checkedContentType := false }
        | some user =>
          -- 4. admin role check
          if user.role ≠ some "admin" then
            { decision := .redirect "/"
                [("error", "unauthorized"),
                 ("message", "Accès réservé aux administrateurs")]
                [("X-Redirect-Reason", "not-admin")],
              rlState := rl, calledGetSession := true, checkedRole := true,
              calledCheckRateLimit := false, checkedContentType := false }
          else
            -- 5. rate limiting on API routes (after authentication)
            if jsStartsWith pathname "/api/" then
              let identifier := jsOrStr (jsOr user.email user.id) ip
              let r := checkRateLimit rl identifier now
              if !r.1 then
                { decision := .rejectJson 429 false
                    "Too many requests. Please try again later."
                    [("Content-Type", "application/json"),
                     ("X-RateLimit-Limit", "100"),
                     ("X-RateLimit-Window", "60"),
                     ("Retry-After", "60")],
                  rlState := r.2, calledGetSession := true,
                  checkedRole := true, calledCheckRateLimit := true,
                  checkedContentType := false }
              else
                contentTypeAndForward req user.email user.id
                  (user.role.getD "") r.2 true
            else
              contentTypeAndForward req user.email user.id
                (user.role.getD "") rl false



/-! ## Rate limiter lemmas -/

/-- A call for an identifier absent from the map is accepted. -/
theorem checkRateLimit_absent (m : RLMap) (identifier : String) (now : Nat)
    (h : mapGet m identifier = none) :
    checkRateLimit m identifier now =
      (true,
        if 1000 < (mapSet m identifier [now]).length then []
        else mapSet m identifier [now]) := by
  simp [checkRateLimit, h, MAX_REQUESTS]

/-- From the empty map, any call is accepted and recorded. -/
theorem checkRateLimit_empty (identifier : String) (now : Nat) :
    checkRateLimit [] identifier now = (true, [(identifier, [now])]) := by
  simp [checkRateLimit, mapGet, mapSet, MAX_REQUESTS]

/-- When every stored timestamp lies in the window ending after `now`,
the pruning filter keeps the whole list. -/
theorem filter_recent_of_window {l : List Nat} {base now : Nat}
    (hl : ∀ u ∈ l, base ≤ u ∧ u < base + RATE_LIMIT_WINDOW)
    (hnow : now < base + RATE_LIMIT_WINDOW) :
    l.filter (fun time => decide (now - time < RATE_LIMIT_WINDOW)) = l := by
  rw [List.filter_eq_self]
  intro u hu
  have := hl u hu
  simp only [decide_eq_true_eq]
  omega

/-- Accepting step on a one-identifier map below the cap. -/
theorem checkRateLimit_single_accept (identifier : String) (l : List Nat)
    (now : Nat) (hlen : l.length < MAX_REQUESTS)
    (hfilter : l.filter (fun time => decide (now - time < RATE_LIMIT_WINDOW)) = l) :
    checkRateLimit [(identifier, l)] identifier now =
      (true, [(identifier, l ++ [now])]) := by
  simp [checkRateLimit, mapGet, mapSet, hfilter, Nat.not_le.mpr hlen]

/-- Denying step on a one-identifier map at the cap. -/
theorem checkRateLimit_single_deny (identifier : String) (l : List Nat)
    (now : Nat) (hlen : MAX_REQUESTS ≤ l.length)
    (hfilter : l.filter (fun time => decide (now - time < RATE_LIMIT_WINDOW)) = l) :
    checkRateLimit [(identifier, l)] identifier now =
      (false, [(identifier, l)]) := by
  simp [checkRateLimit, mapGet, hfilter, hlen]

/-- Behaviour of a run of in-window calls for one identifier: calls are
accepted until the stored count reaches the cap and denied afterwards. -/
theorem runCalls_capped (identifier : String) (base : Nat) :
    ∀ (ts acc : List Nat),
      (∀ u ∈ acc, base ≤ u ∧ u < base + RATE_LIMIT_WINDOW) →
      (∀ t ∈ ts, base ≤ t ∧ t < base + RATE_LIMIT_WINDOW) →
      acc.length ≤ MAX_REQUESTS →
      runCalls [(identifier, acc)] identifier ts =
        ([(identifier, acc ++ ts.take (MAX_REQUESTS - acc.length))],
         (List.range ts.length).map
           (fun i => decide (acc.length + i < MAX_REQUESTS)))
  | [], acc, _, _, _ => by simp [runCalls]
  | t :: ts, acc, hacc, hts, hlen => by
    have htmem := hts t (List.mem_cons_self t ts)
    have hfilter := filter_recent_of_window hacc htmem.2
    by_cases hlt : acc.length < MAX_REQUESTS
    · have hstep := checkRateLimit_single_accept identifier acc t hlt hfilter
      have hrec := runCalls_capped identifier base ts (acc ++ [t])
        (by intro u hu
            rcases List.mem_append.mp hu with h | h
            · exact hacc u h
            · simp at h; subst h; exact htmem)
        (fun u hu => hts u (List.mem_cons_of_mem _ hu))
        (by simp; omega)
      simp only [runCalls, hstep, hrec, Prod.mk.injEq, List.cons.injEq]
      constructor
      · have h1 : MAX_REQUESTS - acc.length = (MAX_REQUESTS - (acc ++ [t]).length) + 1 := by
          simp; omega
        rw [List.append_assoc, h1, List.take_succ_cons]
        simp
      · simp only [List.length_cons]
        rw [List.range_succ_eq_map, List.map_cons, List.map_map]
        simp only [List.cons.injEq]
        constructor
        · simp [hlt]
        · apply List.map_congr_left
          intro i _
          simp only [Function.comp_apply]
          rw [decide_eq_decide]
          simp
          omega
    · have heq : MAX_REQUESTS ≤ acc.length := Nat.not_lt.mp hlt
      have hstep := checkRateLimit_single_deny identifier acc t heq hfilter
      have hrec := runCalls_capped identifier base ts acc hacc
        (fun u hu => hts u (List.mem_cons_of_mem _ hu)) hlen
      simp only [runCalls, hstep, hrec, Prod.mk.injEq, List.cons.injEq]
      have hz : MAX_REQUESTS - acc.length = 0 := by omega
      constructor
      · simp [hz]
      · simp only [List.length_cons]
        rw [List.range_succ_eq_map, List.map_cons, List.map_map]
        simp only [List.cons.injEq]
        constructor
        · simp; omega
        · apply List.map_congr_left
          intro i _
          simp only [Function.comp_apply]
          rw [decide_eq_decide]
          omega

/-- Setting an absent key appends a new entry. -/
theorem mapSet_length_absent : ∀ (m : RLMap) (k : String) (v : List Nat),
    mapGet m k = none → (mapSet m k v).length = m.length + 1
  | [], _, _, _ => by simp [mapSet]
  | (k2, v2) :: rest, k, v, h => by
    by_cases hk : k2 = k
    · simp [mapGet, hk] at h
    · simp only [mapGet, if_neg hk] at h
      simp [mapSet, if_neg hk, mapSet_length_absent rest k v h]
/-- C5: for a fixed identifier starting from an empty rate-limit map, 101
calls whose timestamps all lie within one 60-second window are accepted for
the first 100 and denied for the 101st; a further call made 61 seconds
after the first timestamp of the window is accepted again, because entries
older than `now - RATE_LIMIT_WINDOW` are dropped before counting (the
window slides). -/
theorem rateLimit_window_slides (identifier : String) (base : Nat)
    (ts : List Nat) (hlen : ts.length = 101)
    (hin : ∀ t ∈ ts, base ≤ t ∧ t < base + RATE_LIMIT_WINDOW) :
    (runCalls [] identifier ts).2 = List.replicate 100 true ++ [false] ∧
    (checkRateLimit (runCalls [] identifier ts).1 identifier
      (ts.headI + 61000)).1 = true := by
  match ts, hlen with
  | t0 :: rest, hlen =>
    have hrestlen : rest.length = 100 := by simpa using hlen
    have hin0 := hin t0 (List.mem_cons_self t0 rest)
    have hinrest : ∀ t ∈ rest, base ≤ t ∧ t < base + RATE_LIMIT_WINDOW :=
      fun t ht => hin t (List.mem_cons_of_mem _ ht)
    have h0 : checkRateLimit [] identifier t0 = (true, [(identifier, [t0])]) :=
      checkRateLimit_empty identifier t0
    have hrun := runCalls_capped identifier base rest [t0]
      (by intro u hu; simp at hu; subst hu; exact hin0) hinrest
      (by simp [MAX_REQUESTS])
    have hall : runCalls [] identifier (t0 :: rest) =
        ([(identifier, t0 :: rest.take 99)],
         true :: (List.range 100).map (fun i => decide (1 + i < MAX_REQUESTS))) := by
      simp only [runCalls, h0, hrun, hrestlen]
      simp [MAX_REQUESTS]
    have hall1 : (runCalls [] identifier (t0 :: rest)).1 =
        [(identifier, t0 :: rest.take 99)] := by rw [hall]
    have hall2 : (runCalls [] identifier (t0 :: rest)).2 =
        true :: (List.range 100).map (fun i => decide (1 + i < MAX_REQUESTS)) := by
      rw [hall]
    constructor
    · rw [hall2]
      decide
    · rw [hall1]
      simp only [List.headI]
      have h1 := List.length_filter_le
        (fun time => decide (t0 + 61000 - time < RATE_LIMIT_WINDOW)) (rest.take 99)
      have h2 : (rest.take 99).length ≤ 99 := by
        simp [List.length_take]
      simp only [checkRateLimit, mapGet, eq_self_iff_true, if_true,
        Option.getD_some]
      rw [List.filter_cons_of_neg (by simp [RATE_LIMIT_WINDOW]),
        if_neg (by simp only [MAX_REQUESTS]; omega)]
/-- C10: a denied `checkRateLimit` call leaves the map exactly as it was:
neither the pruning of stale timestamps nor the over-1000 clear is
persisted on the denial path. -/
theorem checkRateLimit_deny_preserves (m : RLMap) (identifier : String)
    (now : Nat) (h : (checkRateLimit m identifier now).1 = false) :
    (checkRateLimit m identifier now).2 = m := by
  simp only [checkRateLimit] at h ⊢
  split at h
  case isTrue hc => rw [if_pos hc]
  case isFalse hc => simp at h
/-- C6: when the map already tracks at least 1000 identifiers, a call for
a fresh identifier is accepted and clears the whole map (the post-insert
size exceeds 1000); consequently an identifier that was previously denied
is accepted again on its next call against the cleared map. -/
theorem rateLimit_clear_unblocks (m : RLMap) (fresh blocked : String)
    (now : Nat) (hfresh : mapGet m fresh = none) (hsize : 1000 ≤ m.length)
    (_hblocked : (checkRateLimit m blocked now).1 = false) :
    checkRateLimit m fresh now = (true, []) ∧
    (checkRateLimit [] blocked now).1 = true := by
  constructor
  · rw [checkRateLimit_absent m fresh now hfresh]
    have hlen := mapSet_length_absent m fresh [now] hfresh
    rw [if_pos (by omega)]
  · simp [checkRateLimit_empty]

def bigMap : RLMap :=
  ("b", List.replicate 100 0) :: (List.range 999).map (fun i => (toString i, []))

def denyMap : RLMap := [("a", List.replicate 100 0)]

theorem rateLimit_window_slides_witness :
    (List.replicate 101 0).length = 101 ∧
    (∀ t ∈ List.replicate 101 (0 : Nat), 0 ≤ t ∧ t < 0 + RATE_LIMIT_WINDOW) ∧
    ((runCalls [] "a" (List.replicate 101 0)).2 =
        List.replicate 100 true ++ [false] ∧
     (checkRateLimit (runCalls [] "a" (List.replicate 101 0)).1 "a"
        ((List.replicate 101 (0 : Nat)).headI + 61000)).1 = true) :=
  ⟨by decide, by decide,
   rateLimit_window_slides "a" 0 (List.replicate 101 0) (by decide) (by decide)⟩

set_option maxRecDepth 100000 in
theorem rateLimit_clear_unblocks_witness :
    mapGet bigMap "f" = none ∧ 1000 ≤ bigMap.length ∧
    (checkRateLimit bigMap "b" 0).1 = false ∧
    (checkRateLimit bigMap "f" 0 = (true, []) ∧
     (checkRateLimit [] "b" 0).1 = true) :=
  ⟨by decide, by decide, by decide,
   rateLimit_clear_unblocks bigMap "f" "b" 0 (by decide) (by decide) (by decide)⟩

theorem checkRateLimit_deny_preserves_witness :
    (checkRateLimit denyMap "a" 0).1 = false ∧
    (checkRateLimit denyMap "a" 0).2 = denyMap :=
  ⟨by decide, checkRateLimit_deny_preserves denyMap "a" 0 (by decide)⟩

/-! ## Middleware theorems -/

/-- C3: every request whose path contains a deny-listed substring gets a
404 regardless of session state (the session argument is universally
quantified), before the public-path check, without session resolution and
with the rate-limit state untouched. -/
theorem middleware_suspicious_404 (req : Request)
    (s : Except String (Option Session)) (rl : RLMap) (now : Nat)
    (hs : isSuspicious req.pathname = true) :
    middleware req s rl now =
      { decision := .reject 404, rlState := rl, calledGetSession := false,
        checkedRole := false, calledCheckRateLimit := false,
        checkedContentType := false } := by
  simp [middleware, hs]

/-- C1: every request whose path starts with "/" and contains no
deny-listed substring is classified public (the allow-list contains the
prefix "/"), so the middleware returns a plain forwarded response with no
headers attached: it never calls the session resolver, never performs the
role check, never calls `checkRateLimit` (the rate-limit state is returned
unchanged) and never performs the content-type check. -/
theorem middleware_public_fastpath (req : Request)
    (s : Except String (Option Session)) (rl : RLMap) (now : Nat)
    (hs : isSuspicious req.pathname = false)
    (hp : jsStartsWith req.pathname "/" = true) :
    middleware req s rl now =
      { decision := .next [], rlState := rl, calledGetSession := false,
        checkedRole := false, calledCheckRateLimit := false,
        checkedContentType := false } := by
  have hpub : isPublicPath req.pathname = true := by
    simp [isPublicPath, PUBLIC_PATHS, hp]
  simp [middleware, hs, hpub]

/-- C4: on a protected path (neither suspicious nor public), when session
resolution yields no session or a session without a user, the middleware
redirects to the login page with `error=authentication_required`, the
original path as `callbackUrl`, and the header
`X-Redirect-Reason: no-session`. -/
theorem middleware_no_session_redirect (req : Request)
    (s : Except String (Option Session)) (rl : RLMap) (now : Nat)
    (hs : isSuspicious req.pathname = false)
    (hp : isPublicPath req.pathname = false)
    (hsess : s = .ok none ∨ s = .ok (some ⟨none⟩)) :
    middleware req s rl now =
      { decision := .redirect "/"
          [("error", "authentication_required"), ("callbackUrl", req.pathname)]
          [("X-Redirect-Reason", "no-session")],
        rlState := rl, calledGetSession := true, checkedRole := false,
        calledCheckRateLimit := false, checkedContentType := false } := by
  rcases hsess with rfl | rfl <;> simp [middleware, hs, hp]

/-- C8: on a protected path, when session resolution throws, the
middleware converts the exception into a redirect to the login page with
`error=auth_error` and the header `X-Redirect-Reason: auth-error`; the
embedding is a total function, so no fault propagates. -/
theorem middleware_auth_error_redirect (req : Request) (msg : String)
    (rl : RLMap) (now : Nat)
    (hs : isSuspicious req.pathname = false)
    (hp : isPublicPath req.pathname = false) :
    middleware req (.error msg) rl now =
      { decision := .redirect "/" [("error", "auth_error")]
          [("X-Redirect-Reason", "auth-error")],
        rlState := rl, calledGetSession := true, checkedRole := false,
        calledCheckRateLimit := false, checkedContentType := false } := by
  simp [middleware, hs, hp]

/-- C9: on a protected path, a session whose user role is not "admin"
is redirected to the login page with `error=unauthorized`, a message
parameter, and the header `X-Redirect-Reason: not-admin`. -/
theorem middleware_not_admin_redirect (req : Request) (u : User)
    (rl : RLMap) (now : Nat)
    (hs : isSuspicious req.pathname = false)
    (hp : isPublicPath req.pathname = false)
    (hrole : u.role ≠ some "admin") :
    middleware req (.ok (some ⟨some u⟩)) rl now =
      { decision := .redirect "/"
          [("error", "unauthorized"),
           ("message", "Accès réservé aux administrateurs")]
          [("X-Redirect-Reason", "not-admin")],
        rlState := rl, calledGetSession := true, checkedRole := true,
        calledCheckRateLimit := false, checkedContentType := false } := by
  simp [middleware, hs, hp, hrole]

def adminUser : User :=
  { role := some "admin", email := some "admin@example.com", id := some "u1" }

/-- C2 failing-input evaluation: an authenticated admin requesting
`/api/orders` with the rate limiter in its initial state is forwarded by
the public fast path with NO headers at all — in particular without
`X-Admin-User` and without `Cache-Control` — contradicting the claim,
because `/api/orders` starts with the allow-listed prefix "/". -/
theorem middleware_c2_failing :
    middleware
      ⟨"/api/orders", "https://admin.example.com", "GET", none, none, none⟩
      (.ok (some ⟨some adminUser⟩)) [] 0 =
      { decision := .next [], rlState := [], calledGetSession := false,
        checkedRole := false, calledCheckRateLimit := false,
        checkedContentType := false } := by decide

/-- C7 failing-input evaluation: a POST with content-type `text/plain`
to the non-auth API path `/api/orders` is forwarded plain (status-200
equivalent) instead of being rejected with 400, because the path starts
with the allow-listed prefix "/" and the content-type check is never
reached; the auth-provider path is likewise forwarded. -/
theorem middleware_c7_failing :
    middleware
      ⟨"/api/orders", "https://admin.example.com", "POST", some "text/plain",
       none, none⟩
      (.ok (some ⟨some adminUser⟩)) [] 0 =
      { decision := .next [], rlState := [], calledGetSession := false,
        checkedRole := false, calledCheckRateLimit := false,
        checkedContentType := false } ∧
    middleware
      ⟨"/api/auth/sign-in", "https://admin.example.com", "POST",
       some "text/plain", none, none⟩
      (.ok (some ⟨some adminUser⟩)) [] 0 =
      { decision := .next [], rlState := [], calledGetSession := false,
        checkedRole := false, calledCheckRateLimit := false,
        checkedContentType := false } := by decide

theorem middleware_suspicious_404_witness :
    isSuspicious "/foo/wp-admin" = true ∧
    (middleware ⟨"/foo/wp-admin", "https://a", "GET", none, none, none⟩
        (.ok (some ⟨some adminUser⟩)) [] 0 =
      { decision := .reject 404, rlState := [], calledGetSession := false,
        checkedRole := false, calledCheckRateLimit := false,
        checkedContentType := false } ∧
     middleware ⟨"/foo/wp-admin", "https://a", "GET", none, none, none⟩
        (.ok none) [] 0 =
      { decision := .reject 404, rlState := [], calledGetSession := false,
        checkedRole := false, calledCheckRateLimit := false,
        checkedContentType := false }) :=
  ⟨by decide,
   middleware_suspicious_404 _ _ _ _ (by decide),
   middleware_suspicious_404 _ _ _ _ (by decide)⟩

theorem middleware_public_fastpath_witness :
    isSuspicious "/api/orders" = false ∧
    jsStartsWith "/api/orders" "/" = true ∧
    middleware ⟨"/api/orders", "https://a", "GET", none, none, none⟩
        (.ok (some ⟨some adminUser⟩)) [] 0 =
      { decision := .next [], rlState := [], calledGetSession := false,
        checkedRole := false, calledCheckRateLimit := false,
        checkedContentType := false } :=
  ⟨by decide, by decide,
   middleware_public_fastpath _ _ _ _ (by decide) (by decide)⟩

theorem middleware_no_session_redirect_witness :
    isSuspicious "orders" = false ∧
    isPublicPath "orders" = false ∧
    middleware ⟨"orders", "https://a", "GET", none, none, none⟩
        (.ok none) [] 0 =
      { decision := .redirect "/"
          [("error", "authentication_required"), ("callbackUrl", "orders")]
          [("X-Redirect-Reason", "no-session")],
        rlState := [], calledGetSession := true, checkedRole := false,
        calledCheckRateLimit := false, checkedContentType := false } :=
  ⟨by decide, by decide,
   middleware_no_session_redirect _ _ _ _ (by decide) (by decide)
     (Or.inl rfl)⟩

theorem middleware_auth_error_redirect_witness :
    isSuspicious "orders" = false ∧
    isPublicPath "orders" = false ∧
    middleware ⟨"orders", "https://a", "GET", none, none, none⟩
        (.error "getSession failed") [] 0 =
      { decision := .redirect "/" [("error", "auth_error")]
          [("X-Redirect-Reason", "auth-error")],
        rlState := [], calledGetSession := true, checkedRole := false,
        calledCheckRateLimit := false, checkedContentType := false } :=
  ⟨by decide, by decide,
   middleware_auth_error_redirect _ _ _ _ (by decide) (by decide)⟩

theorem middleware_not_admin_redirect_witness :
    isSuspicious "orders" = false ∧
    isPublicPath "orders" = false ∧
    (⟨some "user", some "eve@example.com", some "u9"⟩ : User).role ≠
      some "admin" ∧
    middleware ⟨"orders", "https://a", "GET", none, none, none⟩
        (.ok (some ⟨some ⟨some "user", some "eve@example.com", some "u9"⟩⟩))
        [] 0 =
      { decision := .redirect "/"
          [("error", "unauthorized"),
           ("message", "Accès réservé aux administrateurs")]
          [("X-Redirect-Reason", "not-admin")],
        rlState := [], calledGetSession := true, checkedRole := true,
        calledCheckRateLimit := false, checkedContentType := false } :=
  ⟨by decide, by decide, by decide,
   middleware_not_admin_redirect _ _ _ _ (by decide) (by decide) (by decide)⟩

end BsAdmin
